import Mathlib

/-!
Verification of the PDF-Crawler engine (`src/pdf_crawler.py`, `src/gemini_analyzer.py`).

The Python source is shallowly embedded below.  Python `str` values are modelled
as Lean `String` (a wrapper around `List Char`); operations that Python performs
on strings (`split`, `lstrip`, `os.path.basename`, percent-decoding, ...) are
re-implemented faithfully on the character list.  Percent-decoding is modelled
for single-byte (ASCII) escape sequences; multi-byte UTF-8 escapes are out of
the modelled fragment.  The filesystem and the network are modelled explicitly
where a claim needs them (an explicit file-system record for the checkpoint
store, an environment record for one download attempt).
-/

namespace PdfCrawler

/-- Characters replaced by the regex `[<>:"/\\|?*]` in `sanitize_filename`. -/
def bannedChars : List Char := ['<', '>', ':', '"', '/', '\\', '|', '?', '*']

/-- Embedding of `sanitize_filename` (pdf_crawler.py lines 154-169):
empty input maps to `"unknown_file"`; otherwise NUL bytes are removed and every
Windows-reserved character is replaced by an underscore. -/
def sanitize_filename (name : String) : String :=
  if name = "" then "unknown_file"
  else ⟨(name.data.filter (fun c => c ≠ Char.ofNat 0)).map
          (fun c => if c ∈ bannedChars then '_' else c)⟩

/-- Value of an ASCII hex digit, as used by percent-decoding. -/
def hexVal (c : Char) : Option Nat :=
  if '0' ≤ c ∧ c ≤ '9' then some (c.toNat - 48)
  else if 'a' ≤ c ∧ c ≤ 'f' then some (c.toNat - 87)
  else if 'A' ≤ c ∧ c ≤ 'F' then some (c.toNat - 55)
  else none

/-- Embedding of `urllib.parse.unquote` on character lists, restricted to
single-byte escapes: `%XX` with two hex digits becomes the character with code
`XX`; a `%` not followed by two hex digits is kept literally. -/
def unquoteL : List Char → List Char
  | '%' :: h :: l :: rest =>
      match hexVal h, hexVal l with
      | some a, some b => Char.ofNat (16 * a + b) :: unquoteL rest
      | _, _ => '%' :: unquoteL (h :: l :: rest)
  | c :: rest => c :: unquoteL rest
  | [] => []

/-- `os.path.basename` for POSIX paths: the part after the last slash. -/
def basenameL (p : List Char) : List Char :=
  (p.reverse.takeWhile (fun c => c ≠ '/')).reverse

/-- `os.path.dirname` for POSIX paths: the part before the last slash, with
trailing slashes stripped unless the head consists only of slashes. -/
def dirnameL (p : List Char) : List Char :=
  let head := p.take (p.length - (basenameL p).length)
  if head ≠ [] ∧ head.any (fun c => c ≠ '/') then
    (head.reverse.dropWhile (fun c => c = '/')).reverse
  else head

/-- Python `str.split(sep)` for a one-character separator. -/
def splitOnChar (sep : Char) : List Char → List (List Char)
  | [] => [[]]
  | c :: rest =>
      let r := splitOnChar sep rest
      if c = sep then [] :: r
      else
        match r with
        | [] => [[c]]
        | h :: t => (c :: h) :: t

/-- `os.path.join` for POSIX paths: each component either restarts the path
(when absolute) or is appended with a single separating slash. -/
def pyJoin (start : List Char) (comps : List (List Char)) : List Char :=
  comps.foldl
    (fun acc p =>
      if p.head? = some '/' then p
      else if acc = [] ∨ acc.getLast? = some '/' then acc ++ p
      else acc ++ '/' :: p)
    start

/-- One attempt of the regex `filename="?([^"]+)"?` at successive start
positions of the header (re.findall scanning, first match returned): at an
occurrence of the literal `filename=` an optional opening quote is consumed and
a non-empty run of non-quote characters is captured; if the capture would be
empty the scan resumes at the next position. -/
def cdExtract : List Char → Option (List Char)
  | [] => none
  | c :: rest =>
      if ("filename=".data).isPrefixOf (c :: rest) then
        let after := (c :: rest).drop 9
        let after2 := match after with
          | '"' :: t => t
          | _ => after
        let cap := after2.takeWhile (fun x => x ≠ '"')
        if cap = [] then cdExtract rest else some cap
      else cdExtract rest

/-- Embedding of `get_filename_from_cd` (pdf_crawler.py lines 171-189). -/
def get_filename_from_cd (cd : String) : Option String :=
  if cd = "" then none
  else (cdExtract cd.data).map (fun l => ⟨l⟩)

/-- The resolved filename of `get_local_path` before its final sanitization
(pdf_crawler.py lines 227-238): the Content-Disposition name when the header
is non-empty and the regex finds one (`if not filename` also catches an empty
extracted name), otherwise the percent-decoded basename of the raw URL path,
or `"index_doc.pdf"` when that basename is empty or extension-less. -/
def resolvedFilename (path : String) (cd : Option String) : String :=
  let fromCd : Option String :=
    match cd with
    | some c => if c ≠ "" then get_filename_from_cd c else none
    | none => none
  let fallback : String :=
    let base := basenameL path.data
    if base = [] ∨ '.' ∉ base then "index_doc.pdf" else ⟨unquoteL base⟩
  match fromCd with
  | some f => if f = "" then fallback else f
  | none => fallback

/-- The path segments `get_local_path` derives before sanitization: the host,
the non-empty directory components of the percent-decoded URL path, and the
resolved filename.  `urlparse` is modelled as already performed: `netloc` and
`path` are its outputs for the given URL. -/
def rawPathSegments (netloc path : String) (cd : Option String) : List String :=
  let path_path := (unquoteL path.data).dropWhile (fun c => c = '/')
  let directory_part :=
    if '.' ∈ basenameL path_path then dirnameL path_path else path_path
  let parts := splitOnChar '/' directory_part
  netloc :: (parts.filter (fun p => p ≠ [])).map (fun p => (⟨p⟩ : String))
    ++ [resolvedFilename path cd]

/-- The path components that `get_local_path` joins after `base_dir`
(pdf_crawler.py lines 191-242): every raw segment passes through
`sanitize_filename` independently (`domain_dir`, each entry of `safe_parts`,
and `safe_filename` in the source). -/
def localPathComponents (netloc path : String) (cd : Option String) : List String :=
  (rawPathSegments netloc path cd).map sanitize_filename

/-- Embedding of `get_local_path` (pdf_crawler.py lines 191-242). -/
def get_local_path (base_dir netloc path : String) (cd : Option String) : String :=
  ⟨pyJoin base_dir.data ((localPathComponents netloc path cd).map String.data)⟩

/-- Embedding of `is_subpath` (pdf_crawler.py lines 244-258): normalize the
root to end with a slash, then a plain string-prefix test. -/
def is_subpath (target_url root_url : String) : Bool :=
  let r := if root_url.data.getLast? = some '/'
           then root_url.data else root_url.data ++ ['/']
  r.isPrefixOf target_url.data

/-- The fragment of JSON documents produced by `json.load` that the checkpoint
claims range over: strings, integers, arrays and objects.  Floats, booleans and
null do not occur in checkpoints written by the crawler and are outside the
modelled fragment. -/
inductive Json where
  | str (s : String)
  | num (n : Int)
  | arr (elems : List Json)
  | obj (fields : List (String × Json))

/-- The hashable JSON leaves: the only values a Python `set` built from a
checkpoint document can contain (strings and integers). -/
inductive Prim where
  | str (s : String)
  | num (n : Int)
deriving DecidableEq

/-- A hashable leaf back to its JSON form. -/
def Prim.toJson : Prim → Json
  | .str s => .str s
  | .num n => .num n

/-- `hash`ability check performed by `set(...)`: strings and integers are
hashable, lists and dicts raise `TypeError`. -/
def Json.toPrim : Json → Option Prim
  | .str s => some (.str s)
  | .num n => some (.num n)
  | _ => none

/-- Python dict lookup built from a JSON object; with duplicate keys the last
binding wins, as in `json.load`. -/
def objLookup (fields : List (String × Json)) (k : String) : Option Json :=
  fields.foldl (fun acc f => if f.1 = k then some f.2 else acc) none

/-- `data[k]` on a parsed JSON document: a `KeyError`/`TypeError` (missing key
or non-dict document) is `none`. -/
def jsonGet (j : Json) (k : String) : Option Json :=
  match j with
  | .obj fs => objLookup fs k
  | _ => none

/-- Iteration order of the keys of a Python dict: first occurrences, in order. -/
def objKeys (fields : List (String × Json)) : List String :=
  (fields.map Prod.fst).dedup

/-- `set(x)` on a JSON value: a list yields the set of its elements when all
are hashable (`TypeError` otherwise), a string yields its one-character
substrings, a dict yields its keys, a number is not iterable. -/
def toSetJ (j : Json) : Option (Finset Prim) :=
  match j with
  | .arr xs => (xs.mapM Json.toPrim).map List.toFinset
  | .str s => some ((s.data.map (fun c => Prim.str ⟨[c]⟩)).toFinset)
  | .obj fs => some (((objKeys fs).map Prim.str).toFinset)
  | .num _ => none

/-- `deque(x)` on a JSON value: a list keeps its elements in order, a string
yields its characters, a dict yields its keys, a number is not iterable. -/
def toListJ (j : Json) : Option (List Json) :=
  match j with
  | .arr xs => some xs
  | .str s => some (s.data.map (fun c => Json.str ⟨[c]⟩))
  | .obj fs => some ((objKeys fs).map Json.str)
  | .num _ => none

/-- The persisted fragment of `CrawlerState` (pdf_crawler.py lines 56-80):
exactly the fields touched by `save_checkpoint`/`load_checkpoint`.  Python is
dynamically typed, so the fields that `load_checkpoint` assigns straight from
the parsed document (`start_url` and the two counters) are modelled as JSON
values; in every state the program itself builds they hold a string and two
integers, as in `initState`. -/
structure CrawlerState where
  visited : Finset Prim
  queue : List Json
  start_url : Json
  scanned : Json
  downloaded : Json

/-- The state `CrawlerState.__init__` gives the persisted fields. -/
def initState : CrawlerState :=
  { visited := ∅, queue := [], start_url := .str "", scanned := .num 0,
    downloaded := .num 0 }

/-- The JSON document `save_checkpoint` serializes (pdf_crawler.py lines
94-102): `visited` as a list, `queue` in FIFO order, `start_url`, and the two
counters under `"stats"`.  `list(self.visited)` enumerates the set in an
order CPython leaves unspecified, so the enumeration `visitedList` is an
explicit argument; theorems constrain it to represent `s.visited`. -/
def saveData (s : CrawlerState) (visitedList : List Prim) : Json :=
  .obj [("visited", .arr (visitedList.map Prim.toJson)),
        ("queue", .arr s.queue),
        ("start_url", s.start_url),
        ("stats", .obj [("scanned", s.scanned), ("downloaded", s.downloaded)])]

/-- What `load_checkpoint` (pdf_crawler.py lines 117-144) reads is one of:
no file (`none`), a file whose bytes do not parse as JSON (`some none`), or a
parsed JSON document (`some (some j)`). -/
abbrev CheckpointFile := Option (Option Json)

/-- Embedding of `load_checkpoint`: returns the `bool` result together with
the state after the call.  Each assignment of the Python body happens in
order, so a failure (caught by the `except` clause) keeps the fields assigned
before it: `set(data["visited"])` first, `deque(data["queue"])` second,
`data.get("start_url", "")` third, then `data["stats"].get(...)` for the two
counters.  Every error path returns `False`; no exception escapes. -/
def load_checkpoint (s : CrawlerState) (file : CheckpointFile) : Bool × CrawlerState :=
  match file with
  | none => (false, s)
  | some none => (false, s)
  | some (some data) =>
    match (jsonGet data "visited").bind toSetJ with
    | none => (false, s)
    | some v =>
      let s1 := { s with visited := v }
      match (jsonGet data "queue").bind toListJ with
      | none => (false, s1)
      | some q =>
        let s2 := { s1 with queue := q }
        let s3 := { s2 with start_url := (jsonGet data "start_url").getD (.str "") }
        match jsonGet data "stats" with
        | some (.obj stf) =>
            let s4 := { s3 with scanned := (objLookup stf "scanned").getD (.num 0) }
            let s5 := { s4 with downloaded := (objLookup stf "downloaded").getD (.num 0) }
            (true, s5)
        | _ => (false, s3)

/-- The files `save_checkpoint` touches: the checkpoint file itself and the
temporary file `filename + ".tmp"`.  `none` means the file does not exist. -/
structure FS where
  chk : Option Json
  tmp : Option Json

/-- The file-system operations `save_checkpoint` performs, in order:
write the temporary file, remove the checkpoint if it exists, rename the
temporary file onto the checkpoint. -/
inductive FsOp where
  | writeTmp (d : Json)
  | removeChk
  | renameTmp

/-- Effect of one file-system operation. -/
def applyOp (fs : FS) : FsOp → FS
  | .writeTmp d => { fs with tmp := some d }
  | .removeChk => if fs.chk.isSome then { fs with chk := none } else fs
  | .renameTmp => { chk := fs.tmp, tmp := none }

/-- Effect of a sequence of file-system operations; a crash after `k` steps
leaves the file system at `applyOps fs (ops.take k)`. -/
def applyOps (fs : FS) (ops : List FsOp) : FS :=
  ops.foldl applyOp fs

/-- The operation sequence of `save_checkpoint` (pdf_crawler.py lines
104-112) for serialized state `d`: write `.tmp`, `os.remove` the old
checkpoint when present, `os.rename` the `.tmp` file into place. -/
def save_checkpoint_ops (d : Json) : List FsOp :=
  [.writeTmp d, .removeChk, .renameTmp]

/-- The concurrency-control fragment of `CrawlerState`: `active_downloads` and
`concurrency_limit` (pdf_crawler.py lines 67-68).  The user-configured cap
`max_concurrency_cap` is a fixed parameter of the transition system. -/
structure CState where
  active : Nat
  limit : Nat
deriving DecidableEq

/-- The events that mutate the concurrency state, each taken from the source:
`dispatch` is the main loop's admission check plus increment (lines 504-531),
`taskDone` is the `download_task_done` callback decrement (lines 341-344),
`fail` is the multiplicative decrease in `download_pdf`'s error handler
(lines 391-397), `tick` is the additive increase in `monitor_performance`
(lines 314-319). -/
inductive CEv where
  | dispatch
  | taskDone
  | fail
  | tick
deriving DecidableEq

/-- One transition of the concurrency state under cap `cap`.  `dispatch`
increments `active` only when `active < limit` (otherwise the loop backs off
and the state is unchanged); `taskDone` decrements `active`; `fail` sets
`limit` to `max 1 (limit / 2)`; `tick` increments `limit` when
`active ≥ limit - 1` and `limit < cap`. -/
def cstep (cap : Nat) (s : CState) : CEv → CState
  | .dispatch => if s.active < s.limit then { s with active := s.active + 1 } else s
  | .taskDone => { s with active := s.active - 1 }
  | .fail => { s with limit := max 1 (s.limit / 2) }
  | .tick =>
      if s.limit - 1 ≤ s.active ∧ s.limit < cap
      then { s with limit := s.limit + 1 } else s

/-- The initial concurrency state set by `CrawlerState.__init__`:
no active downloads and `concurrency_limit = 2`. -/
def cinit : CState := { active := 0, limit := 2 }

/-- State after a sequence of events starting from an arbitrary state. -/
def crunFrom (cap : Nat) (s : CState) (evs : List CEv) : CState :=
  evs.foldl (cstep cap) s

/-- State after a sequence of events from the initial state: the reachable
states of the crawler are exactly the values of `crun`. -/
def crun (cap : Nat) (evs : List CEv) : CState :=
  crunFrom cap cinit evs

/-- One row of the manifest log, as appended by `log_manifest`
(pdf_crawler.py lines 260-277).  The wall-clock `timestamp` column is not
modelled. -/
structure ManifestEntry where
  url : String
  local_path : String
  status : String
  error : String
deriving DecidableEq

/-- Embedding of `log_manifest`: appends one row to the in-memory buffer. -/
def log_manifest (log : List ManifestEntry) (url local_path status error_msg : String) :
    List ManifestEntry :=
  log ++ [{ url := url, local_path := local_path, status := status, error := error_msg }]

/-- The external outcomes one call of `download_pdf` can observe
(pdf_crawler.py lines 346-397): whether the pre-request check
`os.path.exists(dummy_path) and os.path.getsize(dummy_path) > 0` holds,
the result of `session.get` plus `raise_for_status` (an exception message, or
the `Content-Disposition` header of a successful response), whether the
resolved target file already exists non-empty, and the outcome of the
directory-creation / streamed-write sequence. -/
structure DlEnv where
  dummyExists : Bool
  response : Except String (Option String)
  realExists : Bool
  writeOutcome : Except String Unit

/-- Embedding of `download_pdf`, returning the manifest rows appended by the
call.  `netloc`/`urlPath` are `urlparse`'s outputs for `url`, and the network
and filesystem are abstracted by `env`.  Faithful to the source: the
pre-request skip returns without logging anything; a request error logs
`FAILED` with `local_path = "unknown"` (the variable is assigned only after
the response headers arrive); an existing resolved target logs
`SKIPPED_EXISTS`; a completed write logs `SUCCESS`; a write error logs
`FAILED` with the resolved path. -/
def download_pdf (output_dir netloc urlPath url : String) (env : DlEnv) :
    List ManifestEntry :=
  if env.dummyExists then []
  else
    match env.response with
    | .error e => log_manifest [] url "unknown" "FAILED" e
    | .ok cd =>
      let local_path := get_local_path output_dir netloc urlPath cd
      if env.realExists then log_manifest [] url local_path "SKIPPED_EXISTS" ""
      else
        match env.writeOutcome with
        | .ok _ => log_manifest [] url local_path "SUCCESS" ""
        | .error e => log_manifest [] url local_path "FAILED" e

/-- One finding parsed from the analyzer's response
(gemini_analyzer.py, `analyze_content`). -/
structure Finding where
  topic : String
  quote : String
  summary : String
deriving DecidableEq

/-- Python `str.lower()`, for the ASCII fragment. -/
def pyLower (s : String) : String :=
  ⟨s.data.map Char.toLower⟩

/-- Python `not text.strip()`: the text is empty or all whitespace. -/
def stripEmpty (text : String) : Bool :=
  text.data.all Char.isWhitespace

/-- Contiguous-sublist test on character lists. -/
def isInfixL (n : List Char) : List Char → Bool
  | [] => n.isEmpty
  | c :: rest => n.isPrefixOf (c :: rest) || isInfixL n rest

/-- Python `needle in haystack` on strings: substring test
(the empty string is a substring of everything). -/
def pyIn (needle haystack : String) : Bool :=
  isInfixL needle.data haystack.data

/-- Embedding of the control flow of `GeminiAnalyzer.analyze_content`
(gemini_analyzer.py lines 180-300).  The two local pre-filters are taken from
the source: empty/whitespace text returns `[]`, and if no keyword occurs in
the lowercased text the call returns `[]`; only otherwise is the external
model consulted, abstracted here as `modelFindings`.  The second component
records whether the external call was made. -/
def analyze_content (text : String) (keywords : List String)
    (modelFindings : List Finding) : List Finding × Bool :=
  if stripEmpty text then ([], false)
  else
    let text_lower := pyLower text
    if keywords.any (fun k => pyIn (pyLower k) text_lower)
    then (modelFindings, true)
    else ([], false)

end PdfCrawler

namespace PdfCrawler

example : sanitize_filename "" = "unknown_file" := by decide
example : sanitize_filename "a<b:c" = "a_b_c" := by decide
example : is_subpath "root/a/b.pdf" "root/" = true := by decide
example : is_subpath "root2/x" "root/" = false := by decide
example : is_subpath "root/../secret" "root/" = true := by decide
example : get_local_path "dl" "host" "/../../secret.pdf" none
    = "dl/host/../../secret.pdf" := by decide
example : get_local_path "dl" "host" "/a%01b.pdf" none
    = ⟨['d','l','/','h','o','s','t','/','a',Char.ofNat 1,'b','.','p','d','f']⟩ := by decide
example : get_local_path "dl" "host" "/reports/" none
    = "dl/host/reports/index_doc.pdf" := by decide
example : get_local_path "dl" "host" "/reports/x" (some "attachment; filename=\"Report (Final).pdf\"")
    = "dl/host/reports/x/Report (Final).pdf" := by decide

example :
    load_checkpoint initState (some (some (saveData
      { visited := {Prim.str "u"}, queue := [Json.str "q"],
        start_url := Json.str "r", scanned := Json.num 3, downloaded := Json.num 1 }
      [Prim.str "u"])))
    = (true, { visited := {Prim.str "u"}, queue := [Json.str "q"],
               start_url := Json.str "r", scanned := Json.num 3,
               downloaded := Json.num 1 }) := by rfl

example :
    load_checkpoint initState (some (some (Json.obj
      [("visited", Json.arr [Json.str "a"]), ("queue", Json.arr [Json.str "b"]),
       ("start_url", Json.str "s")])))
    = (false, { visited := {Prim.str "a"}, queue := [Json.str "b"],
                start_url := Json.str "s", scanned := Json.num 0,
                downloaded := Json.num 0 }) := by rfl

example :
    (applyOps ⟨some (Json.str "old"), none⟩
      ((save_checkpoint_ops (Json.str "new")).take 2)).chk = none := by rfl

/-- Every character of a `sanitize_filename` result is neither NUL nor one of
the Windows-reserved characters. -/
theorem sanitize_filename_chars (s : String) :
    ∀ c ∈ (sanitize_filename s).data, c ≠ Char.ofNat 0 ∧ c ∉ bannedChars := by
  intro c hc
  unfold sanitize_filename at hc
  split at hc
  · have h : ∀ x ∈ ("unknown_file" : String).data,
        x ≠ Char.ofNat 0 ∧ x ∉ bannedChars := by decide
    exact h c hc
  · rcases List.mem_map.mp hc with ⟨a, ha, rfl⟩
    rcases List.mem_filter.mp ha with ⟨-, hne⟩
    by_cases hb : a ∈ bannedChars
    · rw [if_pos hb]
      decide
    · rw [if_neg hb]
      exact ⟨by simpa using hne, hb⟩

/-- Claim C10 (confirmed): for every input string, `sanitize_filename` returns
a string containing no NUL byte and none of the characters
`< > : " / \ | ? *`, and the empty string is mapped to `"unknown_file"`. -/
theorem c10_sanitize_safe (s : String) :
    (∀ c ∈ (sanitize_filename s).data, c ≠ Char.ofNat 0 ∧ c ∉ bannedChars)
    ∧ sanitize_filename "" = "unknown_file" :=
  ⟨sanitize_filename_chars s, by decide⟩

/-- Witness for C10 at the concrete input `"a<b"`, whose sanitized form
contains the character `a`. -/
theorem c10_witness :
    ('a' ≠ Char.ofNat 0 ∧ 'a' ∉ bannedChars)
    ∧ sanitize_filename "" = "unknown_file" :=
  ⟨(c10_sanitize_safe "a<b").1 'a' (by decide), (c10_sanitize_safe "a<b").2⟩

/-- Claim C1 is false on the code: `get_local_path` preserves `..` path
segments (so an attacker-chosen URL escapes `base_dir` after resolution) and
preserves control characters other than NUL (here `%01` decodes to the control
character `U+0001`, which survives sanitization into the result). -/
theorem c1_counterexample :
    get_local_path "dl" "host" "/../../secret.pdf" none = "dl/host/../../secret.pdf"
    ∧ ['.', '.'] ∈ splitOnChar '/' (get_local_path "dl" "host" "/../../secret.pdf" none).data
    ∧ Char.ofNat 1 ∈ (get_local_path "dl" "host" "/a%01b.pdf" none).data := by
  refine ⟨by decide, by decide, by decide⟩

/-- Claim C1 (amended): every path segment `get_local_path` appends under
`base_dir` (the host, each directory component, the final filename) is
independently sanitized and therefore contains no NUL and none of the
filesystem-reserved characters `< > : " / \ | ? *`; however control characters
other than NUL are not removed and `..` segments are preserved, so path
traversal out of `base_dir` remains possible for attacker-chosen URLs. -/
theorem c1_amended (netloc path : String) (cd : Option String) :
    ∀ seg ∈ localPathComponents netloc path cd, ∀ c ∈ seg.data,
      c ≠ Char.ofNat 0 ∧ c ∉ bannedChars := by
  intro seg hseg
  rcases List.mem_map.mp hseg with ⟨x, -, rfl⟩
  exact sanitize_filename_chars x

/-- Witness for C1 (amended) at a concrete URL: the host segment of
`http://host/x.pdf` is `"host"` and its first character is safe. -/
theorem c1_witness :
    'h' ≠ Char.ofNat 0 ∧ 'h' ∉ bannedChars :=
  c1_amended "host" "/x.pdf" none "host" (by decide) 'h' (by decide)

/-- Claim C3 is false on the code at the input it predicts `false` for:
`is_subpath` is a plain string-prefix test, so `root/../secret` (which starts
with `root/`) is accepted rather than rejected. -/
theorem c3_counterexample :
    is_subpath "root/../secret" "root/" = true := by decide

/-- Claim C3 (amended): `is_subpath target root` is true iff `target` begins
with `root` normalized to end with a path separator; it is true for
`root/a/b.pdf` against `root/`, false for `root2/x`, and — since the test is a
string-prefix test that does not resolve dot segments — true (not false) for
`root/../secret`; and for every target the result is identical whether the
root is supplied with or without a trailing slash. -/
theorem c3_amended (t r : String) (h : r.data.getLast? ≠ some '/') :
    is_subpath "root/a/b.pdf" "root/" = true
    ∧ is_subpath "root2/x" "root/" = false
    ∧ is_subpath "root/../secret" "root/" = true
    ∧ is_subpath t r = (r.data ++ ['/']).isPrefixOf t.data
    ∧ is_subpath t (r.push '/') = is_subpath t r := by
  obtain ⟨rd⟩ := r
  refine ⟨by decide, by decide, by decide, ?_, ?_⟩
  · simp only [is_subpath, String.data] at h ⊢
    rw [if_neg h]
  · have hpush : (String.mk rd).push '/' = String.mk (rd ++ ['/']) := rfl
    simp only [is_subpath, hpush, String.data] at h ⊢
    rw [if_neg h, if_pos (List.getLast?_concat rd)]

/-- Witness for C3 (amended) at root `"root"` (no trailing slash) and target
`"root/x"`. -/
theorem c3_witness :
    is_subpath "root/a/b.pdf" "root/" = true
    ∧ is_subpath "root2/x" "root/" = false
    ∧ is_subpath "root/../secret" "root/" = true
    ∧ is_subpath "root/x" "root" = (("root" : String).data ++ ['/']).isPrefixOf ("root/x" : String).data
    ∧ is_subpath "root/x" (("root" : String).push '/') = is_subpath "root/x" "root" :=
  c3_amended "root/x" "root" (by decide)

/-- Claim C9 (confirmed): for every text and non-empty keyword list, if the
text is empty/whitespace or no keyword occurs in the text under
case-insensitive comparison, `analyze_content` returns the empty list without
making any external model call. -/
theorem c9_prefilter (text : String) (keywords : List String)
    (modelFindings : List Finding) (_hk : keywords ≠ [])
    (h : stripEmpty text = true
         ∨ ∀ k ∈ keywords, pyIn (pyLower k) (pyLower text) = false) :
    analyze_content text keywords modelFindings = ([], false) := by
  unfold analyze_content
  rcases h with h | h
  · rw [if_pos h]
  · by_cases hs : stripEmpty text = true
    · rw [if_pos hs]
    · rw [if_neg hs, if_neg]
      simp only [List.any_eq_true, not_exists, not_and]
      intro k hk'
      simp [h k hk']

/-- Witness for C9 at concrete inputs: none of the keywords occurs in the
text, so the result is empty and no model call is made. -/
theorem c9_witness :
    analyze_content "hello world" ["xyz"]
      [{ topic := "t", quote := "q", summary := "s" }] = ([], false) :=
  c9_prefilter "hello world" ["xyz"]
    [{ topic := "t", quote := "q", summary := "s" }]
    (by decide) (Or.inr (by decide))

/-- Claim C2 names a real bug in the code: `save_checkpoint` removes the old
checkpoint before renaming the temporary file into place, so a crash between
`os.remove(filename)` and `os.rename(temp_name, filename)` (the state after
the first two of its three file operations) leaves no checkpoint file at the
checkpoint path at all — neither the previous complete one nor the new one —
contradicting both the claim and the function's own docstring.  Only after the
third operation is the new checkpoint in place. -/
theorem c2_crash_window :
    let fs0 : FS := { chk := some (Json.str "previous"), tmp := none }
    let mid := applyOps fs0 ((save_checkpoint_ops (Json.str "next")).take 2)
    fs0.chk.isSome = true
    ∧ mid.chk = none
    ∧ (applyOps fs0 (save_checkpoint_ops (Json.str "next"))).chk
        = some (Json.str "next") :=
  ⟨rfl, rfl, rfl⟩

/-- One step keeps `concurrency_limit` at least 1. -/
theorem cstep_limit_lb {cap : Nat} {s : CState} (e : CEv) (h : 1 ≤ s.limit) :
    1 ≤ (cstep cap s e).limit := by
  cases e with
  | dispatch => simp only [cstep]; split <;> exact h
  | taskDone => exact h
  | fail => exact Nat.le_max_left 1 _
  | tick =>
      simp only [cstep]
      split
      · exact Nat.le_succ_of_le h
      · exact h

/-- One step keeps `concurrency_limit` at most `max 2 cap`. -/
theorem cstep_limit_ub {cap : Nat} {s : CState} (e : CEv) (h : s.limit ≤ max 2 cap) :
    (cstep cap s e).limit ≤ max 2 cap := by
  cases e with
  | dispatch => simp only [cstep]; split <;> exact h
  | taskDone => exact h
  | fail =>
      exact max_le (le_trans one_le_two (Nat.le_max_left 2 cap))
        (le_trans (Nat.div_le_self _ _) h)
  | tick =>
      simp only [cstep]
      split
      next hcond => exact le_trans (Nat.succ_le_of_lt hcond.2) (Nat.le_max_right 2 cap)
      next => exact h

/-- A non-failure step preserves `active ≤ limit`. -/
theorem cstep_active_le {cap : Nat} {s : CState} {e : CEv} (hne : e ≠ .fail)
    (h : s.active ≤ s.limit) :
    (cstep cap s e).active ≤ (cstep cap s e).limit := by
  cases e with
  | fail => exact absurd rfl hne
  | dispatch =>
      simp only [cstep]
      split
      next hlt => exact Nat.succ_le_of_lt hlt
      next => exact h
  | taskDone => exact le_trans (Nat.sub_le _ _) h
  | tick =>
      simp only [cstep]
      split
      · exact Nat.le_succ_of_le h
      · exact h

/-- The limit bounds are invariants of every event sequence. -/
theorem crunFrom_limit_bounds (cap : Nat) (evs : List CEv) :
    ∀ s : CState, 1 ≤ s.limit → s.limit ≤ max 2 cap →
      1 ≤ (crunFrom cap s evs).limit ∧ (crunFrom cap s evs).limit ≤ max 2 cap := by
  induction evs with
  | nil => exact fun s h1 h2 => ⟨h1, h2⟩
  | cons e rest ih =>
      intro s h1 h2
      exact ih (cstep cap s e) (cstep_limit_lb e h1) (cstep_limit_ub e h2)

/-- `active ≤ limit` is an invariant of every failure-free event sequence. -/
theorem crunFrom_active_le (cap : Nat) (evs : List CEv) :
    ∀ s : CState, CEv.fail ∉ evs → s.active ≤ s.limit →
      (crunFrom cap s evs).active ≤ (crunFrom cap s evs).limit := by
  induction evs with
  | nil => exact fun s _ h => h
  | cons e rest ih =>
      intro s hmem h
      have hne : e ≠ CEv.fail := fun he => hmem (he ▸ List.mem_cons_self e rest)
      have hrest : CEv.fail ∉ rest := fun hm => hmem (List.mem_cons_of_mem e hm)
      exact ih (cstep cap s e) hrest (cstep_active_le hne h)

/-- Claim C4 is false on the code, in both conjuncts, at reachable states:
with user cap 1 the initial state already has `concurrency_limit = 2 > cap`
(the cap is installed without clamping the initial limit of 2); and with cap
30, after three admitted dispatches interleaved with two controller ticks and
then one failure-triggered halving, `active_downloads = 4` exceeds
`concurrency_limit = 2`. -/
theorem c4_counterexample :
    ((crun 1 []).limit = 2 ∧ ¬ (crun 1 []).limit ≤ 1)
    ∧ ((crun 30 [.dispatch, .dispatch, .tick, .dispatch, .tick, .dispatch,
          .fail]).active = 4
       ∧ (crun 30 [.dispatch, .dispatch, .tick, .dispatch, .tick, .dispatch,
            .fail]).limit = 2
       ∧ ¬ (crun 30 [.dispatch, .dispatch, .tick, .dispatch, .tick, .dispatch,
              .fail]).active
            ≤ (crun 30 [.dispatch, .dispatch, .tick, .dispatch, .tick,
                .dispatch, .fail]).limit) := by
  decide

/-- Claim C4 (amended): in every reachable state, for every cap,
`concurrency_limit` stays within `[1, max 2 cap]` (so within `[1, cap]`
whenever `cap ≥ 2`; with `cap = 1` the initial limit 2 already exceeds the
cap), and `active_downloads ≤ concurrency_limit` holds across every
interleaving that contains no failure (a failure-triggered halving can leave
`active_downloads` above the new limit until in-flight downloads drain). -/
theorem c4_amended (cap : Nat) (evs : List CEv) :
    1 ≤ (crun cap evs).limit
    ∧ (crun cap evs).limit ≤ max 2 cap
    ∧ (CEv.fail ∉ evs → (crun cap evs).active ≤ (crun cap evs).limit) := by
  have hb := crunFrom_limit_bounds cap evs cinit (by decide) (Nat.le_max_left 2 cap)
  exact ⟨hb.1, hb.2, fun hf => crunFrom_active_le cap evs cinit hf (by decide)⟩

/-- Witness for C4 (amended): a concrete failure-free run. -/
theorem c4_witness :
    (crun 1 [CEv.dispatch]).active ≤ (crun 1 [CEv.dispatch]).limit :=
  (c4_amended 1 [CEv.dispatch]).2.2 (by decide)

/-- `k` failure-triggered halvings take the limit from `L` to
`max 1 (L / 2 ^ k)`. -/
theorem fail_halving_iter (cap k : Nat) :
    ∀ s : CState, 1 ≤ s.limit →
      (crunFrom cap s (List.replicate k CEv.fail)).limit
        = max 1 (s.limit / 2 ^ k) := by
  induction k with
  | zero =>
      intro s h
      rw [List.replicate_zero, pow_zero, Nat.div_one]
      exact (Nat.max_eq_right h).symm
  | succ k ih =>
      intro s h
      rw [List.replicate_succ]
      have hstep : crunFrom cap s (CEv.fail :: List.replicate k CEv.fail)
          = crunFrom cap (cstep cap s CEv.fail) (List.replicate k CEv.fail) := rfl
      have hlim : (cstep cap s CEv.fail).limit = max 1 (s.limit / 2) := rfl
      rw [hstep, ih (cstep cap s CEv.fail) (by rw [hlim]; exact Nat.le_max_left 1 _),
        hlim]
      have hdd : s.limit / 2 ^ (k + 1) = s.limit / 2 / 2 ^ k := by
        rw [Nat.div_div_eq_div_mul, pow_succ, Nat.mul_comm (2 ^ k) 2]
      rw [hdd]
      rcases Nat.eq_zero_or_pos (s.limit / 2) with hz | hp
      · rw [hz, Nat.zero_div]
        have hmax10 : max 1 0 = 1 := by decide
        rw [hmax10]
        exact Nat.max_eq_left (Nat.div_le_self 1 _)
      · rw [Nat.max_eq_right hp]

/-- Claim C5 (confirmed): starting from limit `L ≥ 1`, `k` failure-triggered
multiplicative decreases leave the limit at `max 1 (L / 2^k)` — each step
floored, never below 1; and on a controller tick where
`active_downloads ≥ limit - 1` and `limit < cap`, the limit increases by
exactly 1 and does not exceed `cap`. -/
theorem c5_aimd (cap k : Nat) (s t : CState) (hL : 1 ≤ s.limit)
    (h1 : t.limit - 1 ≤ t.active) (h2 : t.limit < cap) :
    (crunFrom cap s (List.replicate k CEv.fail)).limit = max 1 (s.limit / 2 ^ k)
    ∧ (cstep cap t CEv.tick).limit = t.limit + 1
    ∧ (cstep cap t CEv.tick).limit ≤ cap := by
  have htick : cstep cap t CEv.tick = { t with limit := t.limit + 1 } := by
    simp only [cstep]
    rw [if_pos (And.intro h1 h2)]
  refine ⟨fail_halving_iter cap k s hL, ?_, ?_⟩
  · rw [htick]
  · rw [htick]
    exact Nat.succ_le_of_lt h2

/-- Witness for C5: two halvings from limit 8 yield limit 2, and a tick at
`active = 4 = limit < cap = 5` raises the limit to exactly 5. -/
theorem c5_witness :
    (crunFrom 5 { active := 0, limit := 8 }
        (List.replicate 2 CEv.fail)).limit = max 1 (8 / 2 ^ 2)
    ∧ (cstep 5 { active := 4, limit := 4 } CEv.tick).limit = 4 + 1
    ∧ (cstep 5 { active := 4, limit := 4 } CEv.tick).limit ≤ 5 :=
  c5_aimd 5 2 { active := 0, limit := 8 } { active := 4, limit := 4 }
    (by decide) (by decide) (by decide)

/-- Claim C8 is false on the code: when the pre-request check finds a
non-empty file at the URL-derived path, `download_pdf` returns before logging
anything, so that invocation appends zero manifest entries, not one. -/
theorem c8_counterexample :
    download_pdf "dl" "host" "/x.pdf" "http://host/x.pdf"
      { dummyExists := true, response := .ok none, realExists := false,
        writeOutcome := .ok () } = []
    ∧ (download_pdf "dl" "host" "/x.pdf" "http://host/x.pdf"
        { dummyExists := true, response := .ok none, realExists := false,
          writeOutcome := .ok () }).length ≠ 1 := by
  exact ⟨rfl, by decide⟩

/-- Claim C8 (amended): an invocation of `download_pdf` appends exactly one
manifest entry — `SUCCESS` on a successful download, `SKIPPED_EXISTS` when the
resolved target file already exists non-empty, `FAILED` (with the error
detail) on a request or write error — except when the pre-request check finds
a non-empty file at the URL-derived path, in which case it appends no entry at
all. -/
theorem c8_amended (output_dir netloc urlPath url : String) (env : DlEnv)
    (h : env.dummyExists = false) :
    (download_pdf output_dir netloc urlPath url env).length = 1
    ∧ ∀ e ∈ download_pdf output_dir netloc urlPath url env,
        (e.status = "SUCCESS" ↔
          (∃ cd, env.response = .ok cd) ∧ env.realExists = false
            ∧ env.writeOutcome = .ok ())
        ∧ (e.status = "SKIPPED_EXISTS" ↔
            (∃ cd, env.response = .ok cd) ∧ env.realExists = true)
        ∧ (e.status = "FAILED" ↔
            ((∃ msg, env.response = .error msg)
             ∨ ((∃ cd, env.response = .ok cd) ∧ env.realExists = false
                ∧ ∃ msg, env.writeOutcome = .error msg))) := by
  obtain ⟨de, resp, re, wo⟩ := env
  simp only at h
  subst h
  cases resp with
  | error msg =>
      simp [download_pdf, log_manifest]
  | ok cd =>
      cases re <;> cases wo <;>
        simp [download_pdf, log_manifest]

/-- Witness for C8 (amended): a successful download appends one entry. -/
theorem c8_witness :
    (download_pdf "dl" "host" "/x.pdf" "http://host/x.pdf"
      { dummyExists := false, response := .ok none, realExists := false,
        writeOutcome := .ok () }).length = 1 :=
  (c8_amended "dl" "host" "/x.pdf" "http://host/x.pdf"
    { dummyExists := false, response := .ok none, realExists := false,
      writeOutcome := .ok () } rfl).1

/-- Round trip between Python-set enumeration and re-hashing: `set()` applied
to the serialized list of a set's elements succeeds and yields the elements. -/
theorem mapM_toPrim_toJson (l : List Prim) :
    (l.map Prim.toJson).mapM Json.toPrim = some l := by
  induction l with
  | nil => rfl
  | cons p rest ih =>
      have hp : Json.toPrim (Prim.toJson p) = some p := by cases p <;> rfl
      rw [List.map_cons, List.mapM_cons, hp, ih]
      rfl

/-- Claim C6 (confirmed): saving a crawler state and loading the resulting
file reproduces the visited set, the queue in the same FIFO order, the same
`start_url`, and the same `scanned`/`downloaded` counters, and the save leaves
exactly the serialized document at the checkpoint path (for every enumeration
order `vl` Python's `list(set)` may pick, every prior file-system content, and
every prior in-memory state of the loader). -/
theorem c6_roundtrip (s s0 : CrawlerState) (fs : FS) (vl : List Prim)
    (hvl : vl.toFinset = s.visited) :
    (applyOps fs (save_checkpoint_ops (saveData s vl))).chk = some (saveData s vl)
    ∧ load_checkpoint s0 (some (some (saveData s vl))) = (true, s) := by
  constructor
  · obtain ⟨chk, tmp⟩ := fs
    cases chk <;> rfl
  · obtain ⟨v, q, u, sc, dl⟩ := s
    have hset : (jsonGet (saveData ⟨v, q, u, sc, dl⟩ vl) "visited").bind toSetJ
        = some v := by
      show toSetJ (Json.arr (vl.map Prim.toJson)) = some v
      simp only [toSetJ, mapM_toPrim_toJson, Option.map_some']
      rw [hvl]
    have hq : (jsonGet (saveData ⟨v, q, u, sc, dl⟩ vl) "queue").bind toListJ
        = some q := rfl
    have hsu : (jsonGet (saveData ⟨v, q, u, sc, dl⟩ vl) "start_url").getD (Json.str "")
        = u := rfl
    have hst : jsonGet (saveData ⟨v, q, u, sc, dl⟩ vl) "stats"
        = some (Json.obj [("scanned", sc), ("downloaded", dl)]) := rfl
    simp only [load_checkpoint, hset, hq, hsu, hst]
    rfl

/-- Witness for C6 at a concrete one-element state. -/
theorem c6_witness :
    (applyOps { chk := none, tmp := none }
        (save_checkpoint_ops (saveData
          { visited := {Prim.str "u"}, queue := [Json.str "q"],
            start_url := Json.str "r", scanned := Json.num 3,
            downloaded := Json.num 1 } [Prim.str "u"]))).chk
      = some (saveData
          { visited := {Prim.str "u"}, queue := [Json.str "q"],
            start_url := Json.str "r", scanned := Json.num 3,
            downloaded := Json.num 1 } [Prim.str "u"])
    ∧ load_checkpoint initState (some (some (saveData
        { visited := {Prim.str "u"}, queue := [Json.str "q"],
          start_url := Json.str "r", scanned := Json.num 3,
          downloaded := Json.num 1 } [Prim.str "u"])))
      = (true, { visited := {Prim.str "u"}, queue := [Json.str "q"],
                 start_url := Json.str "r", scanned := Json.num 3,
                 downloaded := Json.num 1 }) :=
  c6_roundtrip
    { visited := {Prim.str "u"}, queue := [Json.str "q"],
      start_url := Json.str "r", scanned := Json.num 3,
      downloaded := Json.num 1 }
    initState { chk := none, tmp := none } [Prim.str "u"] (by decide)

/-- Claim C7 is false on the code in its "starts fresh" half: a checkpoint
document that has valid `visited` and `queue` entries but no `stats` key makes
`load_checkpoint` return `False` — yet the state has already been mutated
(`self.visited` was assigned before the `KeyError` on `data["stats"]`), so the
state after the failed load differs from the state after a missing file. -/
theorem c7_counterexample :
    (load_checkpoint initState (some (some (Json.obj
        [("visited", Json.arr [Json.str "a"]), ("queue", Json.arr [Json.str "b"]),
         ("start_url", Json.str "s")])))).1 = false
    ∧ (load_checkpoint initState none).2 = initState
    ∧ (load_checkpoint initState (some (some (Json.obj
        [("visited", Json.arr [Json.str "a"]), ("queue", Json.arr [Json.str "b"]),
         ("start_url", Json.str "s")])))).2.visited ≠ initState.visited := by
  refine ⟨rfl, rfl, ?_⟩
  decide

/-- Claim C7 (amended): for every malformed checkpoint, `load_checkpoint`
returns `False` without raising; the crawler state is unchanged — as if no
checkpoint file existed — when the file is missing, when its contents do not
parse as JSON, or when its `visited` entry is missing or not convertible to a
set; but a failure at a later entry keeps the fields already assigned, so the
post-failure state can differ from the fresh-start state. -/
theorem c7_amended (s : CrawlerState) (j : Json)
    (h : (jsonGet j "visited").bind toSetJ = none) :
    load_checkpoint s none = (false, s)
    ∧ load_checkpoint s (some none) = (false, s)
    ∧ load_checkpoint s (some (some j)) = (false, s) := by
  refine ⟨rfl, rfl, ?_⟩
  simp only [load_checkpoint, h]

/-- Witness for C7 (amended) at a document that is not even a JSON object. -/
theorem c7_witness :
    load_checkpoint initState none = (false, initState)
    ∧ load_checkpoint initState (some none) = (false, initState)
    ∧ load_checkpoint initState (some (some (Json.num 0))) = (false, initState) :=
  c7_amended initState (Json.num 0) rfl

end PdfCrawler
